import Mathlib

/-!
# System clock bindings (`core/jni/android_os_SystemClock.cpp`)

A shallow embedding of the native clock functions and of the time-setting
operation with its alarm-driver / RTC fallback.

* C integers are mathematical integers (`Int`); every conversion to a narrower
  or fixed-width type is an explicit `wrapSigned`.
* `time_t`, `suseconds_t` and the `tv_nsec` field are `long`; its width is the
  parameter `LONG_BIT` (at least 32 on every C implementation).
* The operating system and libc are an oracle `OS σ` over an arbitrary world
  state `σ`; every external call is recorded, in program order, in a trace of
  `Event`s together with the value it returned.
* Logging (`ALOGV`, `ALOGD`, `ALOGW`) has no effect on results and is omitted.
-/

namespace android

/-! ## Machine integers -/

/-- The constant `INT_MAX` of `<limits.h>` for a 32-bit `int`. -/
def INT_MAX : Int := 2147483647

/-- Value of a signed two's-complement integer of width `w` holding `x`. -/
def wrapSigned (w : Nat) (x : Int) : Int :=
  (x + 2 ^ (w - 1)) % 2 ^ w - 2 ^ (w - 1)

/-! ## Data model -/

/-- The C `struct timeval`. -/
structure timeval where
  tv_sec : Int
  tv_usec : Int
  deriving DecidableEq, Repr

/-- The C `struct timespec`. -/
structure timespec where
  tv_sec : Int
  tv_nsec : Int
  deriving DecidableEq, Repr

/-- The C `struct tm` (the nine standard fields). -/
structure tm where
  tm_sec : Int
  tm_min : Int
  tm_hour : Int
  tm_mday : Int
  tm_mon : Int
  tm_year : Int
  tm_wday : Int
  tm_yday : Int
  tm_isdst : Int
  deriving DecidableEq, Repr

/-- The kernel's `struct rtc_time` of `<linux/rtc.h>`. -/
structure rtc_time where
  tm_sec : Int
  tm_min : Int
  tm_hour : Int
  tm_mday : Int
  tm_mon : Int
  tm_year : Int
  tm_wday : Int
  tm_yday : Int
  tm_isdst : Int
  deriving DecidableEq, Repr

/-- The two device nodes the file opens. -/
inductive Device where
  /-- The node "/dev/alarm". -/
  | dev_alarm
  /-- The node "/dev/rtc0". -/
  | dev_rtc0
  deriving DecidableEq, Repr

/-- Path of a device node as written in the source. -/
def Device.path : Device → String
  | Device.dev_alarm => "/dev/alarm"
  | Device.dev_rtc0 => "/dev/rtc0"

/-- An ioctl request together with the structure its argument points to. -/
inductive IoctlRequest where
  | ANDROID_ALARM_SET_RTC (ts : timespec)
  | RTC_SET_TIME (rtc : rtc_time)
  deriving DecidableEq, Repr

/-- One external call, with its arguments and the value it returned. -/
inductive Event where
  /-- The call `open(path, O_RDWR)` returned `fd`. -/
  | open_ (dev : Device) (fd : Int)
  /-- The call `ioctl(fd, request, &arg)` returned `res`. -/
  | ioctl (fd : Int) (req : IoctlRequest) (res : Int)
  /-- The call `settimeofday(&tv, NULL)` returned `res`. -/
  | settimeofday (tv : timeval) (res : Int)
  /-- The call `gmtime_r(&sec, &tm)` returned NULL (`none`) or filled `tm`. -/
  | gmtime_r (sec : Int) (res : Option tm)
  /-- The call `close(fd)`. -/
  | close (fd : Int)
  deriving DecidableEq, Repr

/-- The operating system and libc as seen by this file: each call maps its
arguments and the current world to a return value and the next world.
`gmtime_r` is a libc computation and does not touch the world. -/
structure OS (σ : Type) where
  open_ : Device → σ → Int × σ
  ioctl : Int → IoctlRequest → σ → Int × σ
  settimeofday : timeval → σ → Int × σ
  gmtime_r : Int → Option tm
  close : Int → σ → σ

/-- What a call of one of the functions leaves behind: its return value, the
world after it and the external calls it made, in order. -/
structure Outcome (α σ : Type) where
  ret : α
  world : σ
  trace : List Event

/-! ## The time-setting operation -/

/-- Lines 46-64: set the clock through the alarm driver. -/
def setCurrentTimeMillisAlarmDriver {σ : Type} (os : OS σ) (LONG_BIT : Nat)
    (tv : timeval) (w : σ) : Outcome Int σ :=
  let o := os.open_ Device.dev_alarm w
  let fd := o.1
  if fd < 0 then
    { ret := -1, world := o.2, trace := [Event.open_ Device.dev_alarm fd] }
  else
    let ts : timespec :=
      { tv_sec := tv.tv_sec, tv_nsec := wrapSigned LONG_BIT (tv.tv_usec * 1000) }
    let i := os.ioctl fd (IoctlRequest.ANDROID_ALARM_SET_RTC ts) o.2
    let res := i.1
    { ret := res
      world := os.close fd i.2
      trace := [Event.open_ Device.dev_alarm fd,
                Event.ioctl fd (IoctlRequest.ANDROID_ALARM_SET_RTC ts) res,
                Event.close fd] }

/-- Lines 92-101: `memset` of the `rtc_time` and the nine field copies. -/
def rtcOfTm (t : tm) : rtc_time :=
  { tm_sec := t.tm_sec, tm_min := t.tm_min, tm_hour := t.tm_hour,
    tm_mday := t.tm_mday, tm_mon := t.tm_mon, tm_year := t.tm_year,
    tm_wday := t.tm_wday, tm_yday := t.tm_yday, tm_isdst := t.tm_isdst }

/-- Lines 66-108: set the clock through `settimeofday` and the RTC device. -/
def setCurrentTimeMillisRtc {σ : Type} (os : OS σ) (tv : timeval) (w : σ) :
    Outcome Int σ :=
  let o := os.open_ Device.dev_rtc0 w
  let fd := o.1
  if fd < 0 then
    { ret := -1, world := o.2, trace := [Event.open_ Device.dev_rtc0 fd] }
  else
    let s := os.settimeofday tv o.2
    let res := s.1
    if res < 0 then
      -- goto done
      { ret := res
        world := os.close fd s.2
        trace := [Event.open_ Device.dev_rtc0 fd, Event.settimeofday tv res,
                  Event.close fd] }
    else
      match os.gmtime_r tv.tv_sec with
      | none =>
        -- res = -1; goto done
        { ret := -1
          world := os.close fd s.2
          trace := [Event.open_ Device.dev_rtc0 fd, Event.settimeofday tv res,
                    Event.gmtime_r tv.tv_sec none, Event.close fd] }
      | some t =>
        let rtc := rtcOfTm t
        let i := os.ioctl fd (IoctlRequest.RTC_SET_TIME rtc) s.2
        { ret := i.1
          world := os.close fd i.2
          trace := [Event.open_ Device.dev_rtc0 fd, Event.settimeofday tv res,
                    Event.gmtime_r tv.tv_sec (some t),
                    Event.ioctl fd (IoctlRequest.RTC_SET_TIME rtc) i.1,
                    Event.close fd] }

/-- Lines 122-123 of `setCurrentTimeMillis`: the `timeval` derived from the
millisecond count (`/` and `%` of C truncate toward zero; both casts narrow
a `long long` to `long`). -/
def setCurrentTimeMillis.tv (LONG_BIT : Nat) (millis : Int) : timeval :=
  { tv_sec := wrapSigned LONG_BIT (Int.tdiv millis 1000)
    tv_usec := wrapSigned LONG_BIT (Int.tmod millis 1000 * 1000) }

/-- Lines 127-135 of `setCurrentTimeMillis`: the alarm driver first, the RTC
when that returned a negative value, and `-1` when the last result is negative. -/
def setCurrentTimeMillis.attempt {σ : Type} (os : OS σ) (LONG_BIT : Nat)
    (tv : timeval) (w : σ) : Outcome Int σ :=
  let a := setCurrentTimeMillisAlarmDriver os LONG_BIT tv w
  let r : Outcome Int σ :=
    if a.ret < 0 then
      let b := setCurrentTimeMillisRtc os tv a.world
      { ret := b.ret, world := b.world, trace := a.trace ++ b.trace }
    else a
  if r.ret < 0 then { ret := -1, world := r.world, trace := r.trace } else r

/-- Lines 113-136: set the current time from a `int64_t` millisecond count. -/
def setCurrentTimeMillis {σ : Type} (os : OS σ) (LONG_BIT : Nat)
    (millis : Int) (w : σ) : Outcome Int σ :=
  if millis ≤ 0 ∨ Int.tdiv millis 1000 ≥ INT_MAX then
    { ret := -1, world := w, trace := [] }
  else
    setCurrentTimeMillis.attempt os LONG_BIT (setCurrentTimeMillis.tv LONG_BIT millis) w

/-- Lines 143-147: the JNI entry point, `setCurrentTimeMillis(millis) == 0`. -/
def android_os_SystemClock_setCurrentTimeMillis {σ : Type} (os : OS σ)
    (LONG_BIT : Nat) (millis : Int) (w : σ) : Outcome Bool σ :=
  let r := setCurrentTimeMillis os LONG_BIT millis w
  { ret := decide (r.ret = 0), world := r.world, trace := r.trace }

/-! ## The clock readers

`currentThreadTimeMillis` and `currentThreadTimeMicro` are embedded in their
`HAVE_POSIX_CLOCKS` form: the other branch of `currentThreadTimeMicro` reads a
field `tv_nsec` of a `struct timeval`, which does not exist, so the file only
builds with `HAVE_POSIX_CLOCKS` defined.  The argument is the reading that
`clock_gettime` / `gettimeofday` stored; the arithmetic is done in `long long`
and the result is a `jlong`, both 64 bits wide. -/

/-- Lines 170-185: `tm.tv_sec * 1000LL + tm.tv_nsec / 1000000`. -/
def android_os_SystemClock_currentThreadTimeMillis (tm : timespec) : Int :=
  wrapSigned 64 (wrapSigned 64 (tm.tv_sec * 1000) + Int.tdiv tm.tv_nsec 1000000)

/-- Lines 190-205: `tm.tv_sec * 1000000LL + tm.tv_nsec / 1000`. -/
def android_os_SystemClock_currentThreadTimeMicro (tm : timespec) : Int :=
  wrapSigned 64 (wrapSigned 64 (tm.tv_sec * 1000000) + Int.tdiv tm.tv_nsec 1000)

/-- Lines 210-217: `tv.tv_sec * 1000000LL + tv.tv_usec`. -/
def android_os_SystemClock_currentTimeMicro (tv : timeval) : Int :=
  wrapSigned 64 (wrapSigned 64 (tv.tv_sec * 1000000) + tv.tv_usec)

/-! ## Reference definitions used to state the properties -/

/-- Gregorian leap-year rule. -/
def isLeapYear (y : Int) : Bool :=
  decide (y % 4 = 0) && (decide (y % 100 ≠ 0) || decide (y % 400 = 0))

/-- Number of days of the Gregorian year `y`. -/
def daysInYear (y : Int) : Int := if isLeapYear y then 366 else 365

/-- Number of days of month `m` (0 = January, 11 = December) of year `y`. -/
def daysInMonth (y m : Int) : Int :=
  if m = 1 then (if isLeapYear y then 29 else 28)
  else if m = 3 ∨ m = 5 ∨ m = 8 ∨ m = 10 then 30
  else 31

/-- Walk forward from 1 January of year `y`: the year containing the day that
lies `d` days after it, and the day's index within that year. -/
def yearOfDay : Nat → Int → Int → Int × Int
  | 0, y, d => (y, d)
  | fuel + 1, y, d =>
    if d < daysInYear y then (y, d) else yearOfDay fuel (y + 1) (d - daysInYear y)

/-- Walk forward from the first day of month `m` of year `y`: the month
containing the day that lies `d` days after it, and the index within it. -/
def monthOfDay : Nat → Int → Int → Int → Int × Int
  | 0, _, m, d => (m, d)
  | fuel + 1, y, m, d =>
    if d < daysInMonth y m then (m, d)
    else monthOfDay fuel y (m + 1) (d - daysInMonth y m)

/-- The broken-down UTC time of `sec` seconds since the Epoch
(1970-01-01 00:00:00 UTC, a Thursday) in the proleptic Gregorian calendar, with
the field conventions of `struct tm`: months from 0, years from 1900, week
days from Sunday = 0, day of the year from 0, no daylight saving. This is what
ISO C / POSIX specify for `gmtime_r`. -/
def gmtimeUTC (sec : Int) : tm :=
  let days := sec / 86400
  let rem := sec % 86400
  let yd := yearOfDay 400 (1970 + 400 * (days / 146097)) (days % 146097)
  let md := monthOfDay 11 yd.1 0 yd.2
  { tm_sec := rem % 60, tm_min := rem / 60 % 60, tm_hour := rem / 3600,
    tm_mday := md.2 + 1, tm_mon := md.1, tm_year := yd.1 - 1900,
    tm_wday := (days + 4) % 7, tm_yday := yd.2, tm_isdst := 0 }

/-- Number of days from 1 January 1970 to 1 January of year `y` (negative
before 1970): 365 per year plus one per leap year in between. -/
def daysBeforeYear (y : Int) : Int :=
  365 * (y - 1970) + (y - 1969) / 4 - (y - 1901) / 100 + (y - 1601) / 400

/-- Number of days from 1 January of year `y` to the first day of month `m`,
for the `m` first months (0 = January). -/
def daysBeforeMonth (y : Int) : Nat → Int
  | 0 => 0
  | m + 1 => daysBeforeMonth y m + daysInMonth y m

/-- Descriptor discipline of a trace, scanned from left to right with the
descriptor that is currently open: a successful open (result at least 0) is
only allowed while nothing is open, the next open or the end of the trace may
only come after a close of exactly that descriptor, and a close is only allowed
for the descriptor that is open. -/
def fdScoped : Option Int → List Event → Bool
  | none, [] => true
  | some _, [] => false
  | none, Event.open_ _ fd :: es =>
    if fd < 0 then fdScoped none es else fdScoped (some fd) es
  | some _, Event.open_ _ _ :: _ => false
  | none, Event.close _ :: _ => false
  | some cur, Event.close fd :: es => decide (fd = cur) && fdScoped none es
  | cur, Event.ioctl _ _ _ :: es => fdScoped cur es
  | cur, Event.settimeofday _ _ :: es => fdScoped cur es
  | cur, Event.gmtime_r _ _ :: es => fdScoped cur es

/-- A call that belongs to the RTC path only. -/
def Event.isRtcPath : Event → Bool
  | Event.open_ Device.dev_rtc0 _ => true
  | Event.ioctl _ (IoctlRequest.RTC_SET_TIME _) _ => true
  | Event.settimeofday _ _ => true
  | Event.gmtime_r _ _ => true
  | _ => false

/-- An operating system that answers from a fixed script: the results of the
two opens, of the two ioctls and of `settimeofday`, and whether `gmtime_r`
succeeds (it then returns the UTC breakdown). The world counts the calls. -/
def scriptedOS (openAlarm ioctlAlarm openRtc settime : Int) (gmtimeOk : Bool)
    (ioctlRtc : Int) : OS Nat :=
  { open_ := fun d n =>
      match d with
      | Device.dev_alarm => (openAlarm, n + 1)
      | Device.dev_rtc0 => (openRtc, n + 1)
    ioctl := fun _ req n =>
      match req with
      | IoctlRequest.ANDROID_ALARM_SET_RTC _ => (ioctlAlarm, n + 1)
      | IoctlRequest.RTC_SET_TIME _ => (ioctlRtc, n + 1)
    settimeofday := fun _ n => (settime, n + 1)
    gmtime_r := fun s => if gmtimeOk then some (gmtimeUTC s) else none
    close := fun _ n => n + 1 }

/-- The trace holds a successful open (result at least 0) of device `d`. -/
def opened (d : Device) (tr : List Event) : Bool :=
  tr.any fun e =>
    match e with
    | Event.open_ d1 fd => decide (d1 = d) && decide (0 ≤ fd)
    | _ => false

/-- The trace holds an `ANDROID_ALARM_SET_RTC` ioctl whose result satisfies `p`. -/
def alarmIoctlReturned (p : Int → Bool) (tr : List Event) : Bool :=
  tr.any fun e =>
    match e with
    | Event.ioctl _ (IoctlRequest.ANDROID_ALARM_SET_RTC _) r => p r
    | _ => false

/-- The trace holds an `RTC_SET_TIME` ioctl whose result satisfies `p`. -/
def rtcIoctlReturned (p : Int → Bool) (tr : List Event) : Bool :=
  tr.any fun e =>
    match e with
    | Event.ioctl _ (IoctlRequest.RTC_SET_TIME _) r => p r
    | _ => false

/-- The trace holds a `settimeofday` call whose result satisfies `p`. -/
def settimeofdayReturned (p : Int → Bool) (tr : List Event) : Bool :=
  tr.any fun e =>
    match e with
    | Event.settimeofday _ r => p r
    | _ => false

/-- The trace holds a `gmtime_r` call that did not return NULL. -/
def gmtimeSucceeded (tr : List Event) : Bool :=
  tr.any fun e =>
    match e with
    | Event.gmtime_r _ (some _) => true
    | _ => false

/-- Success of the alarm-driver step as the specification words it: the
device opened and the ioctl result is not negative. -/
def alarmStepSucceeded (tr : List Event) : Bool :=
  opened Device.dev_alarm tr && alarmIoctlReturned (fun r => decide (0 ≤ r)) tr

/-- Success of the RTC step as the specification words it: the device opened
and none of `settimeofday`, `gmtime_r` and the ioctl reported failure. -/
def rtcStepSucceeded (tr : List Event) : Bool :=
  opened Device.dev_rtc0 tr && settimeofdayReturned (fun r => decide (0 ≤ r)) tr &&
    gmtimeSucceeded tr && rtcIoctlReturned (fun r => decide (0 ≤ r)) tr

/-! ## Arithmetic facts -/

theorem wrapSigned_eq_self (w : Nat) (x : Int) (hw : 32 ≤ w)
    (hlo : -2147483648 ≤ x) (hhi : x < 2147483648) : wrapSigned w x = x := by
  have hp : (2147483648 : Int) ≤ 2 ^ (w - 1) := by
    have h31 : (2 : Int) ^ 31 ≤ 2 ^ (w - 1) :=
      pow_le_pow_right₀ (by norm_num) (by omega)
    norm_num at h31
    exact h31
  have hd : (2 : Int) ^ w = 2 * 2 ^ (w - 1) := by
    have hw1 : w = (w - 1) + 1 := by omega
    conv_lhs => rw [hw1]
    rw [pow_succ]
    ring
  unfold wrapSigned
  rw [hd]
  generalize (2 : Int) ^ (w - 1) = p at hp
  rw [Int.emod_eq_of_lt (by omega) (by omega)]
  omega

theorem wrapSigned_64 (x : Int) (hlo : -9223372036854775808 ≤ x)
    (hhi : x < 9223372036854775808) : wrapSigned 64 x = x := by
  unfold wrapSigned
  norm_num
  rw [Int.emod_eq_of_lt (by omega) (by omega)]
  omega

theorem guard_passes (t : Int) (h0 : 0 < t) (h1 : t / 1000 < INT_MAX) :
    ¬ (t ≤ 0 ∨ Int.tdiv t 1000 ≥ INT_MAX) := by
  rw [Int.tdiv_eq_ediv (by omega) (by norm_num)]
  omega

theorem tv_of_accepted (LONG_BIT : Nat) (t : Int) (hlb : 32 ≤ LONG_BIT)
    (h0 : 0 < t) (h1 : t / 1000 < INT_MAX) :
    setCurrentTimeMillis.tv LONG_BIT t = { tv_sec := t / 1000, tv_usec := t % 1000 * 1000 } := by
  unfold INT_MAX at h1
  unfold setCurrentTimeMillis.tv
  rw [Int.tdiv_eq_ediv (by omega) (by norm_num), Int.tmod_eq_emod (by omega) (by norm_num)]
  rw [wrapSigned_eq_self _ _ hlb (by omega) (by omega),
    wrapSigned_eq_self _ _ hlb (by omega) (by omega)]

theorem setCurrentTimeMillis_of_accepted {σ : Type} (os : OS σ) (LONG_BIT : Nat)
    (t : Int) (w : σ) (hlb : 32 ≤ LONG_BIT) (h0 : 0 < t) (h1 : t / 1000 < INT_MAX) :
    setCurrentTimeMillis os LONG_BIT t w =
      setCurrentTimeMillis.attempt os LONG_BIT
        { tv_sec := t / 1000, tv_usec := t % 1000 * 1000 } w := by
  unfold setCurrentTimeMillis
  rw [if_neg (guard_passes t h0 h1), tv_of_accepted LONG_BIT t hlb h0 h1]


/-! ## The reference UTC breakdown

`gmtimeUTC` is checked against the relation by which POSIX defines the seconds
since the Epoch from a broken-down UTC time, and against the month lengths. -/

theorem daysBeforeYear_succ (y : Int) :
    daysBeforeYear (y + 1) = daysBeforeYear y + daysInYear y := by
  unfold daysBeforeYear daysInYear isLeapYear
  by_cases h4 : y % 4 = 0 <;> by_cases h100 : y % 100 = 0 <;>
    by_cases h400 : y % 400 = 0 <;> simp [h4, h100, h400] <;> omega

theorem daysInYear_ge (y : Int) : 365 ≤ daysInYear y := by
  unfold daysInYear
  split_ifs <;> norm_num

theorem yearOfDay_spec (fuel : Nat) : ∀ (y d : Int), 0 ≤ d → d < 365 * (fuel + 1) →
    daysBeforeYear (yearOfDay fuel y d).1 + (yearOfDay fuel y d).2 = daysBeforeYear y + d ∧
    0 ≤ (yearOfDay fuel y d).2 ∧
    (yearOfDay fuel y d).2 < daysInYear (yearOfDay fuel y d).1 := by
  induction fuel with
  | zero =>
    intro y d hd hlt
    have := daysInYear_ge y
    simp only [yearOfDay]
    refine ⟨trivial, hd, ?_⟩
    simp at hlt
    omega
  | succ n ih =>
    intro y d hd hlt
    have hge := daysInYear_ge y
    simp only [yearOfDay]
    split_ifs with h
    · exact ⟨rfl, hd, h⟩
    · have hrec := ih (y + 1) (d - daysInYear y) (by omega) (by push_cast at hlt ⊢; omega)
      rw [daysBeforeYear_succ] at hrec
      refine ⟨by omega, hrec.2.1, hrec.2.2⟩

/-- The reference breakdown `gmtimeUTC` satisfies the defining relation of
POSIX between a broken-down UTC time and the seconds since the Epoch, with
every field in its range. -/
theorem gmtimeUTC_seconds_since_epoch (sec : Int) :
    (gmtimeUTC sec).tm_sec + (gmtimeUTC sec).tm_min * 60 + (gmtimeUTC sec).tm_hour * 3600 +
      (gmtimeUTC sec).tm_yday * 86400 + ((gmtimeUTC sec).tm_year - 70) * 31536000 +
      (((gmtimeUTC sec).tm_year - 69) / 4) * 86400 -
      (((gmtimeUTC sec).tm_year - 1) / 100) * 86400 +
      (((gmtimeUTC sec).tm_year + 299) / 400) * 86400 = sec ∧
    (0 ≤ (gmtimeUTC sec).tm_sec ∧ (gmtimeUTC sec).tm_sec < 60) ∧
    (0 ≤ (gmtimeUTC sec).tm_min ∧ (gmtimeUTC sec).tm_min < 60) ∧
    (0 ≤ (gmtimeUTC sec).tm_hour ∧ (gmtimeUTC sec).tm_hour < 24) ∧
    (0 ≤ (gmtimeUTC sec).tm_yday ∧
      (gmtimeUTC sec).tm_yday < daysInYear ((gmtimeUTC sec).tm_year + 1900)) ∧
    (0 ≤ (gmtimeUTC sec).tm_wday ∧ (gmtimeUTC sec).tm_wday < 7) := by
  have hy := yearOfDay_spec 400 (1970 + 400 * (sec / 86400 / 146097)) (sec / 86400 % 146097)
    (by omega) (by norm_num; omega)
  have hbase : daysBeforeYear (1970 + 400 * (sec / 86400 / 146097)) =
      146097 * (sec / 86400 / 146097) := by
    unfold daysBeforeYear
    omega
  rw [hbase] at hy
  obtain ⟨hsum, hlo, hhi⟩ := hy
  simp only [gmtimeUTC]
  generalize yearOfDay 400 (1970 + 400 * (sec / 86400 / 146097)) (sec / 86400 % 146097) = yd
    at hsum hlo hhi
  unfold daysBeforeYear at hsum
  refine ⟨?_, ⟨by omega, by omega⟩, ⟨by omega, by omega⟩, ⟨by omega, by omega⟩,
    ⟨hlo, ?_⟩, ⟨by omega, by omega⟩⟩
  · omega
  · have : yd.1 - 1900 + 1900 = yd.1 := by omega
    rw [this]
    exact hhi

theorem monthOfDay_spec (y : Int) (fuel : Nat) : ∀ (m : Nat) (d : Int), 0 ≤ d →
    ∃ k : Nat, (monthOfDay fuel y m d).1 = k ∧ m ≤ k ∧ k ≤ m + fuel ∧
      daysBeforeMonth y k + (monthOfDay fuel y m d).2 = daysBeforeMonth y m + d ∧
      0 ≤ (monthOfDay fuel y m d).2 ∧
      (k < m + fuel → (monthOfDay fuel y m d).2 < daysInMonth y k) := by
  induction fuel with
  | zero =>
    intro m d hd
    exact ⟨m, rfl, le_refl _, le_refl _, rfl, hd, fun h => absurd h (lt_irrefl _)⟩
  | succ n ih =>
    intro m d hd
    simp only [monthOfDay]
    split_ifs with h
    · exact ⟨m, rfl, le_refl _, by omega, rfl, hd, fun _ => h⟩
    · obtain ⟨k, hk1, hk2, hk3, hk4, hk5, hk6⟩ :=
        ih (m + 1) (d - daysInMonth y m) (by omega)
      push_cast at hk1 hk4 hk5 hk6
      refine ⟨k, hk1, by omega, by omega, ?_, hk5, fun hlt => hk6 (by omega)⟩
      rw [hk4]
      simp only [daysBeforeMonth]
      ring

theorem daysBeforeMonth_twelve (y : Int) : daysBeforeMonth y 12 = daysInYear y := by
  have h : daysBeforeMonth y 12 =
      0 + daysInMonth y 0 + daysInMonth y 1 + daysInMonth y 2 + daysInMonth y 3 +
        daysInMonth y 4 + daysInMonth y 5 + daysInMonth y 6 + daysInMonth y 7 +
        daysInMonth y 8 + daysInMonth y 9 + daysInMonth y 10 + daysInMonth y 11 := rfl
  rw [h]
  simp only [daysInMonth]
  norm_num
  unfold daysInYear
  split_ifs <;> norm_num

/-- The month and the day of the month of `gmtimeUTC` are those of the day of
the year it reports: the months before `tm_mon` hold `tm_yday - (tm_mday - 1)`
days, and `tm_mday` is a day of month `tm_mon`. -/
theorem gmtimeUTC_calendar_day (sec : Int) :
    ∃ k : Nat, (gmtimeUTC sec).tm_mon = k ∧ k ≤ 11 ∧
      (gmtimeUTC sec).tm_yday =
        daysBeforeMonth ((gmtimeUTC sec).tm_year + 1900) k + ((gmtimeUTC sec).tm_mday - 1) ∧
      1 ≤ (gmtimeUTC sec).tm_mday ∧
      (gmtimeUTC sec).tm_mday ≤ daysInMonth ((gmtimeUTC sec).tm_year + 1900) k := by
  obtain ⟨-, -, -, -, ⟨hlo, hhi⟩, -⟩ := gmtimeUTC_seconds_since_epoch sec
  simp only [gmtimeUTC] at hlo hhi ⊢
  generalize yearOfDay 400 (1970 + 400 * (sec / 86400 / 146097)) (sec / 86400 % 146097) = yd
    at hlo hhi ⊢
  have hyear : yd.1 - 1900 + 1900 = yd.1 := by omega
  rw [hyear] at hhi ⊢
  have hm := monthOfDay_spec yd.1 11 0 yd.2 hlo
  simp only [Nat.cast_zero] at hm
  obtain ⟨k, hk1, -, hk3, hk4, hk5, hk6⟩ := hm
  simp only [daysBeforeMonth, zero_add] at hk4
  refine ⟨k, hk1, by omega, by omega, by omega, ?_⟩
  by_cases hk : k < 0 + 11
  · have := hk6 hk
    omega
  · have hk11 : k = 11 := by omega
    subst hk11
    have h12 := daysBeforeMonth_twelve yd.1
    have hstep : daysBeforeMonth yd.1 12 =
        daysBeforeMonth yd.1 11 + daysInMonth yd.1 ((11 : Nat) : Int) := rfl
    omega

/-! ## Shape of the two steps -/

theorem alarm_shape {σ : Type} (os : OS σ) (LONG_BIT : Nat) (tv : timeval) (w : σ) :
    ((os.open_ Device.dev_alarm w).1 < 0 ∧
      (setCurrentTimeMillisAlarmDriver os LONG_BIT tv w).ret = -1 ∧
      (setCurrentTimeMillisAlarmDriver os LONG_BIT tv w).trace =
        [Event.open_ Device.dev_alarm (os.open_ Device.dev_alarm w).1]) ∨
    (0 ≤ (os.open_ Device.dev_alarm w).1 ∧
      ∃ res : Int, (setCurrentTimeMillisAlarmDriver os LONG_BIT tv w).ret = res ∧
        (setCurrentTimeMillisAlarmDriver os LONG_BIT tv w).trace =
          [Event.open_ Device.dev_alarm (os.open_ Device.dev_alarm w).1,
           Event.ioctl (os.open_ Device.dev_alarm w).1
             (IoctlRequest.ANDROID_ALARM_SET_RTC
               { tv_sec := tv.tv_sec, tv_nsec := wrapSigned LONG_BIT (tv.tv_usec * 1000) }) res,
           Event.close (os.open_ Device.dev_alarm w).1]) := by
  unfold setCurrentTimeMillisAlarmDriver
  by_cases h : (os.open_ Device.dev_alarm w).1 < 0
  · left
    simp [h]
  · right
    simp [h]
    omega

theorem rtc_shape {σ : Type} (os : OS σ) (tv : timeval) (w : σ) :
    ∃ fd : Int,
      (fd < 0 ∧ (setCurrentTimeMillisRtc os tv w).ret = -1 ∧
        (setCurrentTimeMillisRtc os tv w).trace = [Event.open_ Device.dev_rtc0 fd]) ∨
      (0 ≤ fd ∧ ∃ r : Int,
        (r < 0 ∧ (setCurrentTimeMillisRtc os tv w).ret = r ∧
          (setCurrentTimeMillisRtc os tv w).trace =
            [Event.open_ Device.dev_rtc0 fd, Event.settimeofday tv r, Event.close fd]) ∨
        (0 ≤ r ∧
          ((os.gmtime_r tv.tv_sec = none ∧ (setCurrentTimeMillisRtc os tv w).ret = -1 ∧
            (setCurrentTimeMillisRtc os tv w).trace =
              [Event.open_ Device.dev_rtc0 fd, Event.settimeofday tv r,
               Event.gmtime_r tv.tv_sec none, Event.close fd]) ∨
           (∃ (t : tm) (i : Int), os.gmtime_r tv.tv_sec = some t ∧
            (setCurrentTimeMillisRtc os tv w).ret = i ∧
            (setCurrentTimeMillisRtc os tv w).trace =
              [Event.open_ Device.dev_rtc0 fd, Event.settimeofday tv r,
               Event.gmtime_r tv.tv_sec (some t),
               Event.ioctl fd (IoctlRequest.RTC_SET_TIME (rtcOfTm t)) i,
               Event.close fd])))) := by
  refine ⟨(os.open_ Device.dev_rtc0 w).1, ?_⟩
  unfold setCurrentTimeMillisRtc
  by_cases h : (os.open_ Device.dev_rtc0 w).1 < 0
  · left
    simp [h]
  · right
    refine ⟨by omega, (os.settimeofday tv (os.open_ Device.dev_rtc0 w).2).1, ?_⟩
    by_cases hs : (os.settimeofday tv (os.open_ Device.dev_rtc0 w).2).1 < 0
    · left
      simp [h, hs]
    · right
      refine ⟨by omega, ?_⟩
      cases hg : os.gmtime_r tv.tv_sec with
      | none => left; simp [h, hs]
      | some t =>
        right
        refine ⟨t, _, rfl, rfl, ?_⟩
        simp [h, hs]

theorem attempt_ret {σ : Type} (os : OS σ) (LONG_BIT : Nat) (tv : timeval) (w : σ) :
    (setCurrentTimeMillis.attempt os LONG_BIT tv w).ret =
      if (setCurrentTimeMillisAlarmDriver os LONG_BIT tv w).ret < 0 then
        if (setCurrentTimeMillisRtc os tv
              (setCurrentTimeMillisAlarmDriver os LONG_BIT tv w).world).ret < 0 then -1
        else (setCurrentTimeMillisRtc os tv
              (setCurrentTimeMillisAlarmDriver os LONG_BIT tv w).world).ret
      else (setCurrentTimeMillisAlarmDriver os LONG_BIT tv w).ret := by
  unfold setCurrentTimeMillis.attempt
  simp only []
  split_ifs <;> rfl

theorem attempt_trace {σ : Type} (os : OS σ) (LONG_BIT : Nat) (tv : timeval) (w : σ) :
    (setCurrentTimeMillis.attempt os LONG_BIT tv w).trace =
      if (setCurrentTimeMillisAlarmDriver os LONG_BIT tv w).ret < 0 then
        (setCurrentTimeMillisAlarmDriver os LONG_BIT tv w).trace ++
          (setCurrentTimeMillisRtc os tv
            (setCurrentTimeMillisAlarmDriver os LONG_BIT tv w).world).trace
      else (setCurrentTimeMillisAlarmDriver os LONG_BIT tv w).trace := by
  unfold setCurrentTimeMillis.attempt
  simp only []
  split_ifs <;> rfl


/-! ## Rejected timestamps -/

/-- C1: for every millisecond timestamp `t` with `t ≤ 0` or `t / 1000 ≥ INT_MAX`,
`setCurrentTimeMillis` returns `-1`, the JNI entry point returns `false`, and
the trace of external calls is empty (no open, ioctl, settimeofday or close),
whatever the operating system would have answered; the world is untouched. -/
theorem setCurrentTimeMillis_rejects_out_of_range {σ : Type} (os : OS σ)
    (LONG_BIT : Nat) (t : Int) (w : σ) (h : t ≤ 0 ∨ INT_MAX ≤ t / 1000) :
    (setCurrentTimeMillis os LONG_BIT t w).ret = -1 ∧
    (android_os_SystemClock_setCurrentTimeMillis os LONG_BIT t w).ret = false ∧
    (setCurrentTimeMillis os LONG_BIT t w).trace = [] ∧
    (android_os_SystemClock_setCurrentTimeMillis os LONG_BIT t w).trace = [] ∧
    (android_os_SystemClock_setCurrentTimeMillis os LONG_BIT t w).world = w := by
  have hg : t ≤ 0 ∨ Int.tdiv t 1000 ≥ INT_MAX := by
    rcases h with h | h
    · exact Or.inl h
    · by_cases ht : t ≤ 0
      · exact Or.inl ht
      · right
        rw [Int.tdiv_eq_ediv (by omega) (by norm_num)]
        exact h
  simp [android_os_SystemClock_setCurrentTimeMillis, setCurrentTimeMillis, hg]

/-- The rejection of C1 at `t = -5`, on a system where every call would succeed. -/
theorem setCurrentTimeMillis_rejects_out_of_range_witness :
    ((-5 : Int) ≤ 0 ∨ INT_MAX ≤ (-5 : Int) / 1000) ∧
    (setCurrentTimeMillis (scriptedOS 3 0 4 0 true 0) 32 (-5) 0).ret = -1 ∧
    (android_os_SystemClock_setCurrentTimeMillis (scriptedOS 3 0 4 0 true 0) 32 (-5) 0).ret
      = false ∧
    (setCurrentTimeMillis (scriptedOS 3 0 4 0 true 0) 32 (-5) 0).trace = [] ∧
    (android_os_SystemClock_setCurrentTimeMillis (scriptedOS 3 0 4 0 true 0) 32 (-5) 0).trace
      = [] ∧
    (android_os_SystemClock_setCurrentTimeMillis (scriptedOS 3 0 4 0 true 0) 32 (-5) 0).world
      = 0 :=
  ⟨Or.inl (by decide),
    setCurrentTimeMillis_rejects_out_of_range (scriptedOS 3 0 4 0 true 0) 32 (-5) 0
      (Or.inl (by decide))⟩

/-! ## Order of the two paths -/

/-- C3: for every accepted timestamp (`0 < t`, `t / 1000 < INT_MAX`) and every
behaviour of the system, the first external call is the open of the alarm
device; the alarm step returns a negative value exactly when that open failed
or the ioctl returned a negative value; the RTC device is opened, and any call
of the RTC path appears, exactly when the alarm step returned a negative value;
and when it returned a non-negative value the trace is the alarm step's alone. -/
theorem alarm_driver_first_rtc_only_on_failure {σ : Type} (os : OS σ)
    (LONG_BIT : Nat) (t : Int) (w : σ)
    (hlb : 32 ≤ LONG_BIT) (h0 : 0 < t) (h1 : t / 1000 < INT_MAX) :
    (setCurrentTimeMillis os LONG_BIT t w).trace.head? =
        some (Event.open_ Device.dev_alarm (os.open_ Device.dev_alarm w).1) ∧
    ((setCurrentTimeMillisAlarmDriver os LONG_BIT
          { tv_sec := t / 1000, tv_usec := t % 1000 * 1000 } w).ret < 0 ↔
      (opened Device.dev_alarm (setCurrentTimeMillis os LONG_BIT t w).trace = false ∨
        alarmIoctlReturned (fun r => decide (r < 0))
          (setCurrentTimeMillis os LONG_BIT t w).trace = true)) ∧
    ((∃ fd, Event.open_ Device.dev_rtc0 fd ∈ (setCurrentTimeMillis os LONG_BIT t w).trace) ↔
      (setCurrentTimeMillisAlarmDriver os LONG_BIT
          { tv_sec := t / 1000, tv_usec := t % 1000 * 1000 } w).ret < 0) ∧
    ((setCurrentTimeMillis os LONG_BIT t w).trace.any Event.isRtcPath = true ↔
      (setCurrentTimeMillisAlarmDriver os LONG_BIT
          { tv_sec := t / 1000, tv_usec := t % 1000 * 1000 } w).ret < 0) ∧
    (0 ≤ (setCurrentTimeMillisAlarmDriver os LONG_BIT
          { tv_sec := t / 1000, tv_usec := t % 1000 * 1000 } w).ret →
      (setCurrentTimeMillis os LONG_BIT t w).trace =
        (setCurrentTimeMillisAlarmDriver os LONG_BIT
          { tv_sec := t / 1000, tv_usec := t % 1000 * 1000 } w).trace) := by
  rw [setCurrentTimeMillis_of_accepted os LONG_BIT t w hlb h0 h1, attempt_trace]
  generalize ({ tv_sec := t / 1000, tv_usec := t % 1000 * 1000 } : timeval) = tv
  have hr := rtc_shape os tv (setCurrentTimeMillisAlarmDriver os LONG_BIT tv w).world
  rcases alarm_shape os LONG_BIT tv w with ⟨hfd, hret, htr⟩ | ⟨hfd, res, hret, htr⟩
  · rw [htr, hret]
    rcases hr with ⟨fd, ⟨h1, -, h3⟩ | ⟨h1, r, ⟨-, -, h3⟩ | ⟨-, ⟨-, -, h3⟩ | ⟨x, i, -, -, h3⟩⟩⟩⟩ <;>
      rw [h3] <;>
      simp [opened, alarmIoctlReturned, Event.isRtcPath, hfd]
  · rw [htr, hret]
    by_cases hneg : res < 0
    · rw [if_pos hneg]
      rcases hr with ⟨fd, ⟨h1, -, h3⟩ | ⟨h1, r, ⟨-, -, h3⟩ | ⟨-, ⟨-, -, h3⟩ | ⟨x, i, -, -, h3⟩⟩⟩⟩ <;>
        rw [h3] <;>
        simp [opened, alarmIoctlReturned, Event.isRtcPath, hfd, hneg]
    · rw [if_neg hneg]
      simp [opened, alarmIoctlReturned, Event.isRtcPath, hfd, hneg]

/-- C3 at `t = 1700000000000` on a system without alarm device: the first call
is the failed open of the alarm device and the RTC device is opened. -/
theorem alarm_driver_first_rtc_only_on_failure_witness :
    (setCurrentTimeMillis (scriptedOS (-1) 0 4 0 true 0) 32 1700000000000 0).trace.head? =
        some (Event.open_ Device.dev_alarm (-1)) ∧
    Event.open_ Device.dev_rtc0 4 ∈
      (setCurrentTimeMillis (scriptedOS (-1) 0 4 0 true 0) 32 1700000000000 0).trace ∧
    (setCurrentTimeMillisAlarmDriver (scriptedOS (-1) 0 4 0 true 0) 32
          { tv_sec := 1700000000000 / 1000, tv_usec := 1700000000000 % 1000 * 1000 } 0).ret
      < 0 :=
  ⟨(alarm_driver_first_rtc_only_on_failure (scriptedOS (-1) 0 4 0 true 0) 32 1700000000000 0
      (by decide) (by decide) (by decide)).1,
    by decide,
    (alarm_driver_first_rtc_only_on_failure (scriptedOS (-1) 0 4 0 true 0) 32 1700000000000 0
      (by decide) (by decide) (by decide)).2.2.1.mp ⟨4, by decide⟩⟩

/-! ## Unit conversions of the time setter -/

/-- C4: for every accepted timestamp the derived `timeval` has
`tv_sec = t / 1000` and `tv_usec = (t % 1000) * 1000` exactly: the truncating
division and remainder of C agree with the mathematical ones, the narrowing to
`long` loses nothing, `tv_sec * 1000 + tv_usec / 1000 = t`, and this `timeval`
is the one `setCurrentTimeMillis` works with. -/
theorem derived_timeval_exact (LONG_BIT : Nat) (t : Int)
    (hlb : 32 ≤ LONG_BIT) (h0 : 0 < t) (h1 : t / 1000 < INT_MAX) :
    (setCurrentTimeMillis.tv LONG_BIT t).tv_sec = t / 1000 ∧
    (setCurrentTimeMillis.tv LONG_BIT t).tv_usec = t % 1000 * 1000 ∧
    (setCurrentTimeMillis.tv LONG_BIT t).tv_sec * 1000 +
        (setCurrentTimeMillis.tv LONG_BIT t).tv_usec / 1000 = t ∧
    (Int.tdiv t 1000 = t / 1000 ∧ Int.tmod t 1000 = t % 1000) ∧
    ∀ (σ : Type) (os : OS σ) (w : σ),
      setCurrentTimeMillis os LONG_BIT t w =
        setCurrentTimeMillis.attempt os LONG_BIT
          { tv_sec := t / 1000, tv_usec := t % 1000 * 1000 } w := by
  rw [tv_of_accepted LONG_BIT t hlb h0 h1]
  refine ⟨rfl, rfl, ?_, ⟨?_, ?_⟩, ?_⟩
  · show t / 1000 * 1000 + t % 1000 * 1000 / 1000 = t
    omega
  · exact Int.tdiv_eq_ediv (by omega) (by norm_num)
  · exact Int.tmod_eq_emod (by omega) (by norm_num)
  · intro σ os w
    exact setCurrentTimeMillis_of_accepted os LONG_BIT t w hlb h0 h1

/-- C4 at `t = 1700000000123` with a 32-bit `long`. -/
theorem derived_timeval_exact_witness :
    (setCurrentTimeMillis.tv 32 1700000000123).tv_sec = 1700000000 ∧
    (setCurrentTimeMillis.tv 32 1700000000123).tv_usec = 123000 ∧
    (setCurrentTimeMillis.tv 32 1700000000123).tv_sec * 1000 +
        (setCurrentTimeMillis.tv 32 1700000000123).tv_usec / 1000 = 1700000000123 :=
  ⟨(derived_timeval_exact 32 1700000000123 (by decide) (by decide) (by decide)).1,
    (derived_timeval_exact 32 1700000000123 (by decide) (by decide) (by decide)).2.1,
    (derived_timeval_exact 32 1700000000123 (by decide) (by decide) (by decide)).2.2.1⟩

/-- C5: for every accepted timestamp for which the alarm device opens, the
second external call is the `ANDROID_ALARM_SET_RTC` ioctl on the descriptor
just opened, and the `timespec` of every such ioctl in the trace is
`{tv_sec = t / 1000, tv_nsec = ((t % 1000) * 1000) * 1000}`. -/
theorem alarm_ioctl_timespec {σ : Type} (os : OS σ) (LONG_BIT : Nat) (t : Int) (w : σ)
    (hlb : 32 ≤ LONG_BIT) (h0 : 0 < t) (h1 : t / 1000 < INT_MAX)
    (hopen : 0 ≤ (os.open_ Device.dev_alarm w).1) :
    (∃ res, (setCurrentTimeMillis os LONG_BIT t w).trace[1]? =
        some (Event.ioctl (os.open_ Device.dev_alarm w).1
          (IoctlRequest.ANDROID_ALARM_SET_RTC
            { tv_sec := t / 1000, tv_nsec := t % 1000 * 1000 * 1000 }) res)) ∧
    ∀ fd ts res,
      Event.ioctl fd (IoctlRequest.ANDROID_ALARM_SET_RTC ts) res ∈
          (setCurrentTimeMillis os LONG_BIT t w).trace →
        ts = { tv_sec := t / 1000, tv_nsec := t % 1000 * 1000 * 1000 } := by
  have hns : wrapSigned LONG_BIT (t % 1000 * 1000 * 1000) = t % 1000 * 1000 * 1000 :=
    wrapSigned_eq_self _ _ hlb (by omega) (by omega)
  rw [setCurrentTimeMillis_of_accepted os LONG_BIT t w hlb h0 h1, attempt_trace]
  have hr := rtc_shape os { tv_sec := t / 1000, tv_usec := t % 1000 * 1000 }
    (setCurrentTimeMillisAlarmDriver os LONG_BIT
      { tv_sec := t / 1000, tv_usec := t % 1000 * 1000 } w).world
  rcases alarm_shape os LONG_BIT { tv_sec := t / 1000, tv_usec := t % 1000 * 1000 } w with
    ⟨hfd, -, -⟩ | ⟨-, res, hret, htr⟩
  · omega
  · rw [htr, hret]
    simp only [hns]
    by_cases hneg : res < 0
    · rw [if_pos hneg]
      rcases hr with ⟨fd, ⟨-, -, h3⟩ | ⟨-, r, ⟨-, -, h3⟩ | ⟨-, ⟨-, -, h3⟩ | ⟨x, i, -, -, h3⟩⟩⟩⟩ <;>
        rw [h3] <;> simp <;> intros <;> assumption
    · rw [if_neg hneg]
      simp
      intros
      assumption

/-- C5 at `t = 1700000000000`: the alarm driver receives `{sec: 1700000000, nsec: 0}`. -/
theorem alarm_ioctl_timespec_witness :
    Event.ioctl 3 (IoctlRequest.ANDROID_ALARM_SET_RTC { tv_sec := 1700000000, tv_nsec := 0 }) 0 ∈
      (setCurrentTimeMillis (scriptedOS 3 0 4 0 true 0) 32 1700000000000 0).trace ∧
    ({ tv_sec := 1700000000, tv_nsec := 0 } : timespec) =
      { tv_sec := 1700000000000 / 1000, tv_nsec := 1700000000000 % 1000 * 1000 * 1000 } :=
  ⟨by decide,
    (alarm_ioctl_timespec (scriptedOS 3 0 4 0 true 0) 32 1700000000000 0
      (by decide) (by decide) (by decide) (by decide)).2 3 _ 0 (by decide)⟩

/-! ## Descriptor scoping -/

/-- The discipline `fdScoped` rejects a descriptor that is never closed, a
close after a failed open, a second close, and an open while another
descriptor is still open. -/
theorem fdScoped_rejects_violations :
    fdScoped none [Event.open_ Device.dev_alarm 3] = false ∧
    fdScoped none [Event.open_ Device.dev_alarm (-1), Event.close (-1)] = false ∧
    fdScoped none [Event.open_ Device.dev_alarm 3, Event.close 3, Event.close 3] = false ∧
    fdScoped none [Event.open_ Device.dev_alarm 3, Event.open_ Device.dev_rtc0 4,
      Event.close 4, Event.close 3] = false ∧
    fdScoped none [Event.open_ Device.dev_alarm 3, Event.close 4] = false := by
  decide

/-- C6: for every input and every behaviour of the system, the trace obeys the
descriptor discipline `fdScoped`: each open that returned a descriptor of at
least 0 is followed, before the end of the operation and before any other open,
by exactly one close of that descriptor, and nothing is closed after an open
that failed. This covers every exit path of both steps. -/
theorem descriptors_scoped_to_the_call {σ : Type} (os : OS σ) (LONG_BIT : Nat)
    (t : Int) (w : σ) :
    fdScoped none (setCurrentTimeMillis os LONG_BIT t w).trace = true ∧
    fdScoped none
      (android_os_SystemClock_setCurrentTimeMillis os LONG_BIT t w).trace = true := by
  have key : ∀ tv : timeval,
      fdScoped none (setCurrentTimeMillis.attempt os LONG_BIT tv w).trace = true := by
    intro tv
    rw [attempt_trace]
    have hr := rtc_shape os tv (setCurrentTimeMillisAlarmDriver os LONG_BIT tv w).world
    rcases alarm_shape os LONG_BIT tv w with ⟨hfd, hret, htr⟩ | ⟨hfd, res, hret, htr⟩
    · rw [htr, hret]
      rcases hr with ⟨fd, ⟨h1, -, h3⟩ | ⟨h1, r, ⟨-, -, h3⟩ | ⟨-, ⟨-, -, h3⟩ | ⟨x, i, -, -, h3⟩⟩⟩⟩ <;>
        rw [h3] <;> simp [fdScoped, hfd, h1]
    · rw [htr, hret]
      split_ifs with hneg
      · rcases hr with ⟨fd, ⟨h1, -, h3⟩ | ⟨h1, r, ⟨-, -, h3⟩ | ⟨-, ⟨-, -, h3⟩ | ⟨x, i, -, -, h3⟩⟩⟩⟩ <;>
          rw [h3] <;> simp [fdScoped, hfd, h1]
      · simp [fdScoped]
        omega
  have main : fdScoped none (setCurrentTimeMillis os LONG_BIT t w).trace = true := by
    unfold setCurrentTimeMillis
    split_ifs
    · rfl
    · exact key _
  exact ⟨main, main⟩


/-! ## The returned boolean -/

/-- C2: for every accepted timestamp and every behaviour of a system whose
ioctls report success as 0 and failure as a negative value (no ioctl of the
trace returns a positive value), the JNI entry point returns `true` exactly
when the alarm step succeeded or the RTC step succeeded, where a step fails
when its device cannot be opened or one of its calls reports failure. The step
functions agree with that wording: the alarm step returns a
non-negative value exactly when the alarm device opened and its ioctl result is
not negative, and after a failed alarm step the RTC step returns a non-negative
value exactly when the RTC step succeeded. -/
theorem jni_true_iff_a_step_succeeded {σ : Type} (os : OS σ)
    (LONG_BIT : Nat) (t : Int) (w : σ)
    (hlb : 32 ≤ LONG_BIT) (h0 : 0 < t) (h1 : t / 1000 < INT_MAX)
    (halarm : alarmIoctlReturned (fun r => decide (0 < r))
      (android_os_SystemClock_setCurrentTimeMillis os LONG_BIT t w).trace = false)
    (hrtc : rtcIoctlReturned (fun r => decide (0 < r))
      (android_os_SystemClock_setCurrentTimeMillis os LONG_BIT t w).trace = false) :
    ((android_os_SystemClock_setCurrentTimeMillis os LONG_BIT t w).ret = true ↔
      (alarmStepSucceeded
          (android_os_SystemClock_setCurrentTimeMillis os LONG_BIT t w).trace = true ∨
       rtcStepSucceeded
          (android_os_SystemClock_setCurrentTimeMillis os LONG_BIT t w).trace = true)) ∧
    (0 ≤ (setCurrentTimeMillisAlarmDriver os LONG_BIT
          { tv_sec := t / 1000, tv_usec := t % 1000 * 1000 } w).ret ↔
      alarmStepSucceeded
          (android_os_SystemClock_setCurrentTimeMillis os LONG_BIT t w).trace = true) ∧
    ((setCurrentTimeMillisAlarmDriver os LONG_BIT
          { tv_sec := t / 1000, tv_usec := t % 1000 * 1000 } w).ret < 0 →
      (0 ≤ (setCurrentTimeMillisRtc os { tv_sec := t / 1000, tv_usec := t % 1000 * 1000 }
            (setCurrentTimeMillisAlarmDriver os LONG_BIT
              { tv_sec := t / 1000, tv_usec := t % 1000 * 1000 } w).world).ret ↔
        rtcStepSucceeded
          (android_os_SystemClock_setCurrentTimeMillis os LONG_BIT t w).trace = true)) := by
  revert halarm hrtc
  unfold android_os_SystemClock_setCurrentTimeMillis
  simp only []
  rw [setCurrentTimeMillis_of_accepted os LONG_BIT t w hlb h0 h1, attempt_trace, attempt_ret]
  generalize ({ tv_sec := t / 1000, tv_usec := t % 1000 * 1000 } : timeval) = tv
  have hr := rtc_shape os tv (setCurrentTimeMillisAlarmDriver os LONG_BIT tv w).world
  rcases alarm_shape os LONG_BIT tv w with ⟨hfd, hret, htr⟩ | ⟨hfd, res, hret, htr⟩
  · rw [htr, hret]
    rcases hr with ⟨fd, ⟨h1, h2, h3⟩ | ⟨h1, r, ⟨hs, h2, h3⟩ | ⟨hs, ⟨-, h2, h3⟩ | ⟨x, i, -, h2, h3⟩⟩⟩⟩ <;>
      rw [h3, h2] <;>
      simp [alarmStepSucceeded, rtcStepSucceeded, opened, alarmIoctlReturned,
        rtcIoctlReturned, settimeofdayReturned, gmtimeSucceeded, *] <;>
      omega
  · rw [htr, hret]
    by_cases hneg : res < 0
    · rw [if_pos hneg, if_pos hneg]
      rcases hr with ⟨fd, ⟨h1, h2, h3⟩ | ⟨h1, r, ⟨hs, h2, h3⟩ | ⟨hs, ⟨-, h2, h3⟩ | ⟨x, i, -, h2, h3⟩⟩⟩⟩ <;>
        rw [h3, h2] <;>
        simp [alarmStepSucceeded, rtcStepSucceeded, opened, alarmIoctlReturned,
          rtcIoctlReturned, settimeofdayReturned, gmtimeSucceeded, *] <;>
        omega
    · rw [if_neg hneg, if_neg hneg]
      simp [alarmStepSucceeded, rtcStepSucceeded, opened, alarmIoctlReturned,
          rtcIoctlReturned, settimeofdayReturned, gmtimeSucceeded, hfd, hneg]
      omega

/-- C2 at `t = 1700000000000` on a system without alarm device whose RTC path
succeeds: no ioctl returns a positive value, the RTC step succeeded, and the
JNI entry point returns `true`. -/
theorem jni_true_iff_a_step_succeeded_witness :
    rtcStepSucceeded
      (android_os_SystemClock_setCurrentTimeMillis (scriptedOS (-1) 0 4 0 true 0) 32
        1700000000000 0).trace = true ∧
    (android_os_SystemClock_setCurrentTimeMillis (scriptedOS (-1) 0 4 0 true 0) 32
        1700000000000 0).ret = true :=
  ⟨by decide,
    (jni_true_iff_a_step_succeeded (scriptedOS (-1) 0 4 0 true 0) 32 1700000000000 0
      (by decide) (by decide) (by decide) (by decide) (by decide)).1.mpr
      (Or.inr (by decide))⟩

/-! ## The RTC fallback -/

/-- C9: for every accepted timestamp, a failed open of the alarm device makes
the alarm step fail, and whenever the alarm step fails the trace is the alarm
step's calls followed by those of the RTC step, which are, in this order,
open of the RTC device, `settimeofday` with the derived `timeval`
`{t / 1000, (t % 1000) * 1000}`, `gmtime_r` with the seconds `t / 1000`, the
`RTC_SET_TIME` ioctl, close; the sequence stops at the first failing call (a
failed open issues nothing further; a failed `settimeofday` or `gmtime_r` is
followed by the close only) and the step then returns a negative value; when no
call before the ioctl fails, the step returns the ioctl's result. -/
theorem rtc_fallback_call_sequence {σ : Type} (os : OS σ) (LONG_BIT : Nat)
    (t : Int) (w : σ) (hlb : 32 ≤ LONG_BIT) (h0 : 0 < t) (h1 : t / 1000 < INT_MAX) :
    ((os.open_ Device.dev_alarm w).1 < 0 →
      (setCurrentTimeMillisAlarmDriver os LONG_BIT
        { tv_sec := t / 1000, tv_usec := t % 1000 * 1000 } w).ret < 0) ∧
    ((setCurrentTimeMillisAlarmDriver os LONG_BIT
        { tv_sec := t / 1000, tv_usec := t % 1000 * 1000 } w).ret < 0 →
      ∃ (rtcTrace : List Event) (rtcRet fd : Int),
        (setCurrentTimeMillis os LONG_BIT t w).trace =
          (setCurrentTimeMillisAlarmDriver os LONG_BIT
            { tv_sec := t / 1000, tv_usec := t % 1000 * 1000 } w).trace ++ rtcTrace ∧
        rtcTrace = (setCurrentTimeMillisRtc os
            { tv_sec := t / 1000, tv_usec := t % 1000 * 1000 }
            (setCurrentTimeMillisAlarmDriver os LONG_BIT
              { tv_sec := t / 1000, tv_usec := t % 1000 * 1000 } w).world).trace ∧
        rtcRet = (setCurrentTimeMillisRtc os
            { tv_sec := t / 1000, tv_usec := t % 1000 * 1000 }
            (setCurrentTimeMillisAlarmDriver os LONG_BIT
              { tv_sec := t / 1000, tv_usec := t % 1000 * 1000 } w).world).ret ∧
        ((fd < 0 ∧ rtcTrace = [Event.open_ Device.dev_rtc0 fd] ∧ rtcRet = -1) ∨
         (0 ≤ fd ∧ ∃ r : Int,
            (r < 0 ∧ rtcRet = r ∧
              rtcTrace =
                [Event.open_ Device.dev_rtc0 fd,
                 Event.settimeofday { tv_sec := t / 1000, tv_usec := t % 1000 * 1000 } r,
                 Event.close fd]) ∨
            (0 ≤ r ∧ rtcRet = -1 ∧
              rtcTrace =
                [Event.open_ Device.dev_rtc0 fd,
                 Event.settimeofday { tv_sec := t / 1000, tv_usec := t % 1000 * 1000 } r,
                 Event.gmtime_r (t / 1000) none,
                 Event.close fd]) ∨
            (0 ≤ r ∧ ∃ (b : tm) (i : Int), rtcRet = i ∧
              rtcTrace =
                [Event.open_ Device.dev_rtc0 fd,
                 Event.settimeofday { tv_sec := t / 1000, tv_usec := t % 1000 * 1000 } r,
                 Event.gmtime_r (t / 1000) (some b),
                 Event.ioctl fd (IoctlRequest.RTC_SET_TIME (rtcOfTm b)) i,
                 Event.close fd])))) := by
  constructor
  · intro hfd
    rcases alarm_shape os LONG_BIT { tv_sec := t / 1000, tv_usec := t % 1000 * 1000 } w with
      ⟨-, hret, -⟩ | ⟨hge, -⟩
    · rw [hret]; decide
    · omega
  · intro hfail
    rw [setCurrentTimeMillis_of_accepted os LONG_BIT t w hlb h0 h1, attempt_trace, if_pos hfail]
    obtain ⟨fd, hsh⟩ := rtc_shape os { tv_sec := t / 1000, tv_usec := t % 1000 * 1000 }
      (setCurrentTimeMillisAlarmDriver os LONG_BIT
        { tv_sec := t / 1000, tv_usec := t % 1000 * 1000 } w).world
    refine ⟨_, _, fd, rfl, rfl, rfl, ?_⟩
    rcases hsh with ⟨h1, h2, h3⟩ | ⟨h1, r, ⟨hs, h2, h3⟩ | ⟨hs, ⟨-, h2, h3⟩ | ⟨b, i, -, h2, h3⟩⟩⟩
    · exact Or.inl ⟨h1, h3, h2⟩
    · exact Or.inr ⟨h1, r, Or.inl ⟨hs, h2, h3⟩⟩
    · exact Or.inr ⟨h1, r, Or.inr (Or.inl ⟨hs, h2, h3⟩)⟩
    · exact Or.inr ⟨h1, r, Or.inr (Or.inr ⟨hs, b, i, h2, h3⟩)⟩

/-- C9 at `t = 1700000000000` on a system without alarm device whose
`settimeofday` fails: the alarm step fails and the RTC step is cut short. -/
theorem rtc_fallback_call_sequence_witness :
    (setCurrentTimeMillisAlarmDriver (scriptedOS (-1) 0 4 (-1) true 0) 32
        { tv_sec := 1700000000000 / 1000, tv_usec := 1700000000000 % 1000 * 1000 } 0).ret < 0 ∧
    (setCurrentTimeMillis (scriptedOS (-1) 0 4 (-1) true 0) 32 1700000000000 0).trace =
      [Event.open_ Device.dev_alarm (-1), Event.open_ Device.dev_rtc0 4,
       Event.settimeofday { tv_sec := 1700000000, tv_usec := 0 } (-1), Event.close 4] ∧
    ∃ (rtcTrace : List Event),
      (setCurrentTimeMillis (scriptedOS (-1) 0 4 (-1) true 0) 32 1700000000000 0).trace =
        (setCurrentTimeMillisAlarmDriver (scriptedOS (-1) 0 4 (-1) true 0) 32
          { tv_sec := 1700000000000 / 1000, tv_usec := 1700000000000 % 1000 * 1000 } 0).trace
          ++ rtcTrace :=
  ⟨(rtc_fallback_call_sequence (scriptedOS (-1) 0 4 (-1) true 0) 32 1700000000000 0
      (by decide) (by decide) (by decide)).1 (by decide),
    by decide,
    ((rtc_fallback_call_sequence (scriptedOS (-1) 0 4 (-1) true 0) 32 1700000000000 0
      (by decide) (by decide) (by decide)).2 (by decide)).imp
      (fun _ h => h.choose_spec.choose_spec.1)⟩

/-- C10: the operation is not atomic with respect to the wall clock. There are
an accepted timestamp and behaviours of the system (no alarm device, the RTC
device opens, `settimeofday` succeeds, then `gmtime_r` fails, or then the
`RTC_SET_TIME` ioctl fails) for which `setCurrentTimeMillis` returns `-1` and
the JNI entry point `false` although `settimeofday` was executed successfully
with the new time. Conversely, for every input and system, when the open of the
RTC device fails, `settimeofday` is never called. -/
theorem settimeofday_may_precede_failure :
    (∃ (os : OS Nat) (t : Int),
      0 < t ∧ t / 1000 < INT_MAX ∧ os.gmtime_r (t / 1000) = none ∧
      (setCurrentTimeMillis os 32 t 0).ret = -1 ∧
      (android_os_SystemClock_setCurrentTimeMillis os 32 t 0).ret = false ∧
      Event.settimeofday { tv_sec := t / 1000, tv_usec := t % 1000 * 1000 } 0 ∈
        (setCurrentTimeMillis os 32 t 0).trace) ∧
    (∃ (os : OS Nat) (t : Int),
      0 < t ∧ t / 1000 < INT_MAX ∧
      rtcIoctlReturned (fun r => decide (r < 0)) (setCurrentTimeMillis os 32 t 0).trace = true ∧
      (setCurrentTimeMillis os 32 t 0).ret = -1 ∧
      (android_os_SystemClock_setCurrentTimeMillis os 32 t 0).ret = false ∧
      Event.settimeofday { tv_sec := t / 1000, tv_usec := t % 1000 * 1000 } 0 ∈
        (setCurrentTimeMillis os 32 t 0).trace) ∧
    (∀ (σ : Type) (os : OS σ) (LONG_BIT : Nat) (t : Int) (w : σ),
      (∃ fd, fd < 0 ∧
        Event.open_ Device.dev_rtc0 fd ∈ (setCurrentTimeMillis os LONG_BIT t w).trace) →
      ∀ tv r, Event.settimeofday tv r ∉ (setCurrentTimeMillis os LONG_BIT t w).trace) := by
  refine ⟨⟨scriptedOS (-1) 0 4 0 false 0, 1700000000000, by decide⟩,
    ⟨scriptedOS (-1) 0 4 0 true (-1), 1700000000000, by decide⟩, ?_⟩
  intro σ os LONG_BIT t w
  unfold setCurrentTimeMillis
  split_ifs
  · simp
  · rw [attempt_trace]
    generalize setCurrentTimeMillis.tv LONG_BIT t = tv
    have hr := rtc_shape os tv (setCurrentTimeMillisAlarmDriver os LONG_BIT tv w).world
    rcases alarm_shape os LONG_BIT tv w with ⟨hfd, hret, htr⟩ | ⟨hfd, res, hret, htr⟩
    · rw [htr, hret]
      rcases hr with ⟨fd, ⟨h1, -, h3⟩ | ⟨h1, r, ⟨-, -, h3⟩ | ⟨-, ⟨-, -, h3⟩ | ⟨x, i, -, -, h3⟩⟩⟩⟩ <;>
        rw [h3] <;> simp <;> omega
    · rw [htr, hret]
      split_ifs with hneg
      · rcases hr with ⟨fd, ⟨h1, -, h3⟩ | ⟨h1, r, ⟨-, -, h3⟩ | ⟨-, ⟨-, -, h3⟩ | ⟨x, i, -, -, h3⟩⟩⟩⟩ <;>
          rw [h3] <;> simp <;> omega
      · simp

/-- C10 on a system with neither device: the open of the RTC device fails and
no `settimeofday` appears in the trace. -/
theorem settimeofday_may_precede_failure_witness :
    Event.open_ Device.dev_rtc0 (-1) ∈
      (setCurrentTimeMillis (scriptedOS (-1) 0 (-1) 0 true 0) 32 1700000000000 0).trace ∧
    Event.settimeofday { tv_sec := 1700000000, tv_usec := 0 } 0 ∉
      (setCurrentTimeMillis (scriptedOS (-1) 0 (-1) 0 true 0) 32 1700000000000 0).trace :=
  ⟨by decide,
    settimeofday_may_precede_failure.2.2 Nat (scriptedOS (-1) 0 (-1) 0 true 0) 32
      1700000000000 0 ⟨-1, by decide, by decide⟩ _ _⟩


/-- C7: on a system whose `gmtime_r` follows ISO C / POSIX (its result, when
not NULL, is the UTC breakdown `gmtimeUTC`), for every accepted timestamp every
`RTC_SET_TIME` ioctl in the trace receives an `rtc_time` that equals the UTC
breakdown of `t / 1000` seconds since the Epoch in each of the nine fields; and
the ioctl is reached whenever the alarm step fails, the RTC device opens,
`settimeofday` does not fail and `gmtime_r` does not return NULL. -/
theorem rtc_ioctl_receives_utc_breakdown {σ : Type} (os : OS σ) (LONG_BIT : Nat)
    (t : Int) (w : σ) (hlb : 32 ≤ LONG_BIT) (h0 : 0 < t) (h1 : t / 1000 < INT_MAX)
    (hlibc : ∀ s b, os.gmtime_r s = some b → b = gmtimeUTC s) :
    (∀ fd rtc res,
      Event.ioctl fd (IoctlRequest.RTC_SET_TIME rtc) res ∈
          (setCurrentTimeMillis os LONG_BIT t w).trace →
        rtc.tm_sec = (gmtimeUTC (t / 1000)).tm_sec ∧
        rtc.tm_min = (gmtimeUTC (t / 1000)).tm_min ∧
        rtc.tm_hour = (gmtimeUTC (t / 1000)).tm_hour ∧
        rtc.tm_mday = (gmtimeUTC (t / 1000)).tm_mday ∧
        rtc.tm_mon = (gmtimeUTC (t / 1000)).tm_mon ∧
        rtc.tm_year = (gmtimeUTC (t / 1000)).tm_year ∧
        rtc.tm_wday = (gmtimeUTC (t / 1000)).tm_wday ∧
        rtc.tm_yday = (gmtimeUTC (t / 1000)).tm_yday ∧
        rtc.tm_isdst = (gmtimeUTC (t / 1000)).tm_isdst) ∧
    (alarmStepSucceeded (setCurrentTimeMillis os LONG_BIT t w).trace = false →
      opened Device.dev_rtc0 (setCurrentTimeMillis os LONG_BIT t w).trace = true →
      settimeofdayReturned (fun r => decide (0 ≤ r))
        (setCurrentTimeMillis os LONG_BIT t w).trace = true →
      gmtimeSucceeded (setCurrentTimeMillis os LONG_BIT t w).trace = true →
      rtcIoctlReturned (fun _ => true) (setCurrentTimeMillis os LONG_BIT t w).trace = true) := by
  rw [setCurrentTimeMillis_of_accepted os LONG_BIT t w hlb h0 h1, attempt_trace]
  have hr := rtc_shape os { tv_sec := t / 1000, tv_usec := t % 1000 * 1000 }
    (setCurrentTimeMillisAlarmDriver os LONG_BIT
      { tv_sec := t / 1000, tv_usec := t % 1000 * 1000 } w).world
  have hcopy : ∀ b : tm, os.gmtime_r (t / 1000) = some b →
      ∀ rtc : rtc_time, rtc = rtcOfTm b →
        rtc.tm_sec = (gmtimeUTC (t / 1000)).tm_sec ∧
        rtc.tm_min = (gmtimeUTC (t / 1000)).tm_min ∧
        rtc.tm_hour = (gmtimeUTC (t / 1000)).tm_hour ∧
        rtc.tm_mday = (gmtimeUTC (t / 1000)).tm_mday ∧
        rtc.tm_mon = (gmtimeUTC (t / 1000)).tm_mon ∧
        rtc.tm_year = (gmtimeUTC (t / 1000)).tm_year ∧
        rtc.tm_wday = (gmtimeUTC (t / 1000)).tm_wday ∧
        rtc.tm_yday = (gmtimeUTC (t / 1000)).tm_yday ∧
        rtc.tm_isdst = (gmtimeUTC (t / 1000)).tm_isdst := by
    intro b hb rtc hrtc
    rw [hrtc, hlibc _ _ hb]
    simp [rtcOfTm]
  rcases alarm_shape os LONG_BIT { tv_sec := t / 1000, tv_usec := t % 1000 * 1000 } w with
    ⟨hfd, hret, htr⟩ | ⟨hfd, res, hret, htr⟩
  · rw [htr, hret]
    rcases hr with ⟨fd, ⟨h1, -, h3⟩ | ⟨h1, r, ⟨hs, -, h3⟩ | ⟨hs, ⟨-, -, h3⟩ | ⟨x, i, hx, -, h3⟩⟩⟩⟩ <;>
      rw [h3] <;>
      simp [alarmStepSucceeded, opened, alarmIoctlReturned, rtcIoctlReturned,
        settimeofdayReturned, gmtimeSucceeded]
    intro fd1 rtc res1 _ hrtc _
    exact hcopy x hx rtc hrtc
  · rw [htr, hret]
    by_cases hneg : res < 0
    · rw [if_pos hneg]
      rcases hr with ⟨fd, ⟨h1, -, h3⟩ | ⟨h1, r, ⟨hs, -, h3⟩ | ⟨hs, ⟨-, -, h3⟩ | ⟨x, i, hx, -, h3⟩⟩⟩⟩ <;>
        rw [h3] <;>
        simp [alarmStepSucceeded, opened, alarmIoctlReturned, rtcIoctlReturned,
          settimeofdayReturned, gmtimeSucceeded]
      intro fd1 rtc res1 _ hrtc _
      exact hcopy x hx rtc hrtc
    · rw [if_neg hneg]
      simp [alarmStepSucceeded, opened, alarmIoctlReturned, rtcIoctlReturned,
          settimeofdayReturned, gmtimeSucceeded]

/-- C7 at `t = 1700000000000` (2023-11-14 22:13:20 UTC, a Tuesday, day 317 of
the year) on a system without alarm device: the `rtc_time` of the ioctl. -/
theorem rtc_ioctl_receives_utc_breakdown_witness :
    Event.ioctl 4 (IoctlRequest.RTC_SET_TIME
        { tm_sec := 20, tm_min := 13, tm_hour := 22, tm_mday := 14, tm_mon := 10,
          tm_year := 123, tm_wday := 2, tm_yday := 317, tm_isdst := 0 }) 0 ∈
      (setCurrentTimeMillis (scriptedOS (-1) 0 4 0 true 0) 32 1700000000000 0).trace ∧
    ((20 : Int) = (gmtimeUTC (1700000000000 / 1000)).tm_sec ∧
      (13 : Int) = (gmtimeUTC (1700000000000 / 1000)).tm_min ∧
      (22 : Int) = (gmtimeUTC (1700000000000 / 1000)).tm_hour ∧
      (14 : Int) = (gmtimeUTC (1700000000000 / 1000)).tm_mday ∧
      (10 : Int) = (gmtimeUTC (1700000000000 / 1000)).tm_mon ∧
      (123 : Int) = (gmtimeUTC (1700000000000 / 1000)).tm_year ∧
      (2 : Int) = (gmtimeUTC (1700000000000 / 1000)).tm_wday ∧
      (317 : Int) = (gmtimeUTC (1700000000000 / 1000)).tm_yday ∧
      (0 : Int) = (gmtimeUTC (1700000000000 / 1000)).tm_isdst) :=
  ⟨by decide,
    (rtc_ioctl_receives_utc_breakdown (scriptedOS (-1) 0 4 0 true 0) 32 1700000000000 0
      (by decide) (by decide) (by decide)
      (fun s b h => (Option.some.inj h).symm)).1 4
      { tm_sec := 20, tm_min := 13, tm_hour := 22, tm_mday := 14, tm_mon := 10,
        tm_year := 123, tm_wday := 2, tm_yday := 317, tm_isdst := 0 } 0 (by decide)⟩

/-! ## The clock readers -/

/-- C8: for a clock reading `(tv_sec, tv_nsec)` with `tv_sec ≥ 0` and
`0 ≤ tv_nsec < 10^9`: whenever the millisecond count fits the signed 64-bit
result, `currentThreadTimeMillis` returns `tv_sec * 1000 + tv_nsec / 1000000`,
the floor of the nanosecond count `tv_sec * 10^9 + tv_nsec` divided by `10^6`;
whenever the microsecond count fits, `currentThreadTimeMicro` returns
`tv_sec * 1000000 + tv_nsec / 1000`, the floor of the nanosecond count divided
by `10^3`, and the millisecond result is the microsecond result divided by
1000. For a reading `(tv_sec, tv_usec)` with `0 ≤ tv_usec < 10^6` whose
microsecond count fits 64 bits, `currentTimeMicro` returns
`tv_sec * 1000000 + tv_usec`. Every reading that a 32-bit `time_t` can hold
fits, so there all the equations hold without further condition. -/
theorem clock_readers_unit_conversion (r : timespec) (v : timeval)
    (hs : 0 ≤ r.tv_sec) (hn0 : 0 ≤ r.tv_nsec) (hn1 : r.tv_nsec < 10 ^ 9)
    (hu0 : 0 ≤ v.tv_usec) (hu1 : v.tv_usec < 10 ^ 6) :
    (r.tv_sec * 1000 + r.tv_nsec / 1000000 < 2 ^ 63 →
      android_os_SystemClock_currentThreadTimeMillis r =
        r.tv_sec * 1000 + r.tv_nsec / 1000000 ∧
      android_os_SystemClock_currentThreadTimeMillis r =
        (r.tv_sec * 10 ^ 9 + r.tv_nsec) / 10 ^ 6) ∧
    (r.tv_sec * 1000000 + r.tv_nsec / 1000 < 2 ^ 63 →
      android_os_SystemClock_currentThreadTimeMicro r =
        r.tv_sec * 1000000 + r.tv_nsec / 1000 ∧
      android_os_SystemClock_currentThreadTimeMicro r =
        (r.tv_sec * 10 ^ 9 + r.tv_nsec) / 10 ^ 3 ∧
      android_os_SystemClock_currentThreadTimeMillis r =
        android_os_SystemClock_currentThreadTimeMicro r / 1000) ∧
    (-2 ^ 63 ≤ v.tv_sec * 1000000 → v.tv_sec * 1000000 + v.tv_usec < 2 ^ 63 →
      android_os_SystemClock_currentTimeMicro v = v.tv_sec * 1000000 + v.tv_usec) ∧
    (r.tv_sec < 2 ^ 31 →
      android_os_SystemClock_currentThreadTimeMillis r =
        r.tv_sec * 1000 + r.tv_nsec / 1000000 ∧
      android_os_SystemClock_currentThreadTimeMicro r =
        r.tv_sec * 1000000 + r.tv_nsec / 1000 ∧
      android_os_SystemClock_currentThreadTimeMillis r =
        (r.tv_sec * 10 ^ 9 + r.tv_nsec) / 10 ^ 6 ∧
      android_os_SystemClock_currentThreadTimeMicro r =
        (r.tv_sec * 10 ^ 9 + r.tv_nsec) / 10 ^ 3 ∧
      android_os_SystemClock_currentThreadTimeMillis r =
        android_os_SystemClock_currentThreadTimeMicro r / 1000) ∧
    (-2 ^ 31 ≤ v.tv_sec → v.tv_sec < 2 ^ 31 →
      android_os_SystemClock_currentTimeMicro v = v.tv_sec * 1000000 + v.tv_usec) := by
  norm_num at hn1 hu1
  have hmilli : r.tv_sec * 1000 + r.tv_nsec / 1000000 < 9223372036854775808 →
      android_os_SystemClock_currentThreadTimeMillis r =
        r.tv_sec * 1000 + r.tv_nsec / 1000000 := by
    intro hfit
    unfold android_os_SystemClock_currentThreadTimeMillis
    rw [Int.tdiv_eq_ediv hn0 (by norm_num),
      wrapSigned_64 (r.tv_sec * 1000) (by omega) (by omega),
      wrapSigned_64 _ (by omega) (by omega)]
  have hmicro : r.tv_sec * 1000000 + r.tv_nsec / 1000 < 9223372036854775808 →
      android_os_SystemClock_currentThreadTimeMicro r =
        r.tv_sec * 1000000 + r.tv_nsec / 1000 := by
    intro hfit
    unfold android_os_SystemClock_currentThreadTimeMicro
    rw [Int.tdiv_eq_ediv hn0 (by norm_num),
      wrapSigned_64 (r.tv_sec * 1000000) (by omega) (by omega),
      wrapSigned_64 _ (by omega) (by omega)]
  have hwall : -9223372036854775808 ≤ v.tv_sec * 1000000 →
      v.tv_sec * 1000000 + v.tv_usec < 9223372036854775808 →
      android_os_SystemClock_currentTimeMicro v = v.tv_sec * 1000000 + v.tv_usec := by
    intro hlo hhi
    unfold android_os_SystemClock_currentTimeMicro
    rw [wrapSigned_64 (v.tv_sec * 1000000) (by omega) (by omega),
      wrapSigned_64 _ (by omega) (by omega)]
  have hfloor6 : r.tv_sec * 1000 + r.tv_nsec / 1000000 =
      (r.tv_sec * 10 ^ 9 + r.tv_nsec) / 10 ^ 6 := by
    norm_num; omega
  have hfloor3 : r.tv_sec * 1000000 + r.tv_nsec / 1000 =
      (r.tv_sec * 10 ^ 9 + r.tv_nsec) / 10 ^ 3 := by
    norm_num; omega
  have hdiv : r.tv_sec * 1000 + r.tv_nsec / 1000000 =
      (r.tv_sec * 1000000 + r.tv_nsec / 1000) / 1000 := by
    omega
  norm_num
  refine ⟨?_, ?_, hwall, ?_, ?_⟩
  · intro hfit
    have e := hmilli hfit
    norm_num at hfloor6
    exact ⟨e, by rw [e]; exact hfloor6⟩
  · intro hfit
    have e := hmicro hfit
    have e1 := hmilli (by omega)
    norm_num at hfloor3
    exact ⟨e, by rw [e]; exact hfloor3, by rw [e, e1]; exact hdiv⟩
  · intro h32
    have e := hmicro (by omega)
    have e1 := hmilli (by omega)
    norm_num at hfloor3 hfloor6
    exact ⟨e1, e, by rw [e1]; exact hfloor6, by rw [e]; exact hfloor3,
      by rw [e, e1]; exact hdiv⟩
  · intro hlo hhi
    exact hwall (by omega) (by omega)

/-- C8 at the readings 12 s + 345678901 ns and 1700000000 s + 123456 µs, both
within a 32-bit `time_t`. -/
theorem clock_readers_unit_conversion_witness :
    (android_os_SystemClock_currentThreadTimeMillis { tv_sec := 12, tv_nsec := 345678901 } =
        12 * 1000 + 345678901 / 1000000 ∧
      android_os_SystemClock_currentThreadTimeMicro { tv_sec := 12, tv_nsec := 345678901 } =
        12 * 1000000 + 345678901 / 1000 ∧
      android_os_SystemClock_currentThreadTimeMillis { tv_sec := 12, tv_nsec := 345678901 } =
        (12 * 10 ^ 9 + 345678901) / 10 ^ 6 ∧
      android_os_SystemClock_currentThreadTimeMicro { tv_sec := 12, tv_nsec := 345678901 } =
        (12 * 10 ^ 9 + 345678901) / 10 ^ 3 ∧
      android_os_SystemClock_currentThreadTimeMillis { tv_sec := 12, tv_nsec := 345678901 } =
        android_os_SystemClock_currentThreadTimeMicro { tv_sec := 12, tv_nsec := 345678901 }
          / 1000) ∧
    android_os_SystemClock_currentTimeMicro { tv_sec := 1700000000, tv_usec := 123456 } =
      1700000000 * 1000000 + 123456 :=
  ⟨(clock_readers_unit_conversion { tv_sec := 12, tv_nsec := 345678901 }
      { tv_sec := 1700000000, tv_usec := 123456 }
      (by decide) (by decide) (by decide) (by decide) (by decide)).2.2.2.1 (by decide),
   (clock_readers_unit_conversion { tv_sec := 12, tv_nsec := 345678901 }
      { tv_sec := 1700000000, tv_usec := 123456 }
      (by decide) (by decide) (by decide) (by decide) (by decide)).2.2.2.2
      (by decide) (by decide)⟩

end android
